import Mathlib

/-!
Shallow embedding of the insights engine of `src/utils/insights.py`.

A pandas dataframe becomes a column schema plus a list of rows; each
engine function becomes a Lean function from dataframes to metric
mappings.  Python code that can raise is embedded as an `Except`-valued
function; exception messages are abstracted to short fixed strings.
Floating-point NaN and infinity, which pandas produces on empty series
and zero denominators, are explicit constructors of the value types, and
a standard deviation is represented symbolically as the square root of
the sample variance.
-/

/-- A cell of the input table: a string, a rational number, a parsed
calendar date, or a month period (dates and periods are produced by the
date parsing and grouping of `get_sales_trends`). -/
inductive Cell where
  | str (s : String)
  | num (q : ℚ)
  | date (y m d : ℕ)
  | period (y m : ℕ)
deriving DecidableEq, Repr

/-- Numeric view of a cell; numeric columns hold `num` cells. -/
def Cell.toQ : Cell → ℚ
  | .num q => q
  | _ => 0

/-- A dataframe: a column schema and a list of rows, each row listing its
cells in schema order. -/
structure DataFrame where
  cols : List String
  rows : List (List Cell)
deriving DecidableEq, Repr

/-- `len(df)`: the number of rows. -/
def DataFrame.len (df : DataFrame) : ℕ := df.rows.length

/-- `c in df.columns`. -/
def hasCol (df : DataFrame) (c : String) : Bool := df.cols.contains c

/-- Position of a column in the schema. -/
def colIdx (df : DataFrame) (c : String) : ℕ := df.cols.indexOf c

/-- `df[c]`: column `c` as a list of cells, one per row. -/
def getCol (df : DataFrame) (c : String) : List Cell :=
  df.rows.map (fun r => r.getD (colIdx df c) (Cell.str ""))

/-- Numeric contents of column `c`. -/
def numCol (df : DataFrame) (c : String) : List ℚ := (getCol df c).map Cell.toQ

/-- A cell of a derived output table; `sqrtOf v` stands for the square
root of `v` (a standard deviation), `nan` and `inf` for the
floating-point non-values of pandas. -/
inductive TCell where
  | str (s : String)
  | num (q : ℚ)
  | date (y m d : ℕ)
  | period (y m : ℕ)
  | sqrtOf (q : ℚ)
  | nan
  | inf
deriving DecidableEq, Repr

/-- An output table (`reset_index` result): renamed columns and rows. -/
structure OutTable where
  cols : List String
  rows : List (List TCell)
deriving DecidableEq, Repr

def Cell.toT : Cell → TCell
  | .str s => .str s
  | .num q => .num q
  | .date y m d => .date y m d
  | .period y m => .period y m

/-- A value of a metric mapping. -/
inductive MVal where
  | num (q : ℚ)
  | nan
  | inf
  | str (s : String)
  | dateV (y m d : ℕ)
  | periodV (y m : ℕ)
  | sqrtOf (q : ℚ)
  | dist (m : List (Cell × ℕ))
  | tmap (m : List (ℚ × TCell))
  | table (t : OutTable)
deriving DecidableEq, Repr

/-- A metric mapping, in insertion order of the Python dict. -/
abbrev Metrics := List (String × MVal)

def cellMV : Cell → MVal
  | .str s => .str s
  | .num q => .num q
  | .date y m d => .dateV y m d
  | .period y m => .periodV y m

/-- `series.value_counts()`: the distinct values with their
multiplicities, most frequent first (stable on ties). -/
def valueCounts (l : List Cell) : List (Cell × ℕ) :=
  List.insertionSort (fun a b : Cell × ℕ => b.2 ≤ a.2)
    (l.dedup.map (fun c => (c, l.count c)))

/-- `counts.get(k, d)` on a value-counts dictionary. -/
def dictGetD (m : List (Cell × ℕ)) (k : Cell) (d : ℕ) : ℕ :=
  match m.lookup k with
  | some v => v
  | none => d

/-- `series.nunique()`. -/
def nunique (l : List Cell) : ℕ := l.dedup.length

/-- `value_counts().index[0]`: the most frequent value. -/
def headMV (m : List (Cell × ℕ)) : MVal :=
  match m with
  | [] => .nan
  | p :: _ => cellMV p.1

/-- `series.mean()`: NaN on an empty series. -/
def meanMV (l : List ℚ) : MVal :=
  if l.length = 0 then .nan else .num (l.sum / l.length)

/-- Sample variance with one delta degree of freedom (pandas default). -/
def sampleVar (l : List ℚ) : ℚ :=
  (l.map (fun x => (x - l.sum / l.length) ^ 2)).sum / ((l.length : ℚ) - 1)

/-- `series.std()`: the square root of the sample variance, NaN when
fewer than two values are present. -/
def stdMV (l : List ℚ) : MVal :=
  if 2 ≤ l.length then .sqrtOf (sampleVar l) else .nan

/-- Linear interpolation into a sorted list at fractional index `x`:
the value between positions `⌊x⌋` and `⌊x⌋ + 1`. -/
def interpAt (s : List ℚ) (x : ℚ) : ℚ :=
  if ⌊x⌋₊ + 1 < s.length then
    s.getD ⌊x⌋₊ 0 + (x - (⌊x⌋₊ : ℚ)) * (s.getD (⌊x⌋₊ + 1) 0 - s.getD ⌊x⌋₊ 0)
  else s.getD (s.length - 1) 0

/-- Linear-interpolation quantile of an already sorted list (the numpy
`linear` method, the pandas default): interpolation at fractional index
`(n - 1) * q`. -/
def quantileSorted (s : List ℚ) (q : ℚ) : ℚ :=
  if s.length = 0 then 0 else interpAt s (((s.length - 1 : ℕ) : ℚ) * q)

/-- `series.quantile(q)`. -/
def quantile (l : List ℚ) (q : ℚ) : ℚ :=
  quantileSorted (List.insertionSort (· ≤ ·) l) q

/-- `series.median()`: the 0.5 quantile, NaN when empty. -/
def medianMV (l : List ℚ) : MVal :=
  if l.length = 0 then .nan else .num (quantile l (1 / 2))

/-- `series.max()`: NaN when empty. -/
def maxMV (l : List ℚ) : MVal :=
  match l with
  | [] => .nan
  | x :: xs => .num (xs.foldl max x)

/-- `series.min()`: NaN when empty. -/
def minMV (l : List ℚ) : MVal :=
  match l with
  | [] => .nan
  | x :: xs => .num (xs.foldl min x)

/-- `(k / n) * 100` with numpy semantics: dividing by a zero row count
yields NaN (the uses always have `k ≤ n`). -/
def pctOf (k n : ℕ) : MVal :=
  if n = 0 then .nan else .num ((k : ℚ) / (n : ℚ) * 100)

/-- Elementwise division of a derived-table column: pandas produces
NaN for `0 / 0` and infinity for `x / 0`. -/
def tdiv (a b : ℚ) : TCell :=
  if b = 0 then (if a = 0 then .nan else .inf) else .num (a / b)

/-- Per-group mean (groups are nonempty, but stay total). -/
def tmean (l : List ℚ) : TCell :=
  if l.length = 0 then .nan else .num (l.sum / l.length)

/-- Per-group standard deviation. -/
def tstd (l : List ℚ) : TCell :=
  if 2 ≤ l.length then .sqrtOf (sampleVar l) else .nan

def Cell.rank : Cell → ℕ
  | .str _ => 0
  | .num _ => 1
  | .date _ _ _ => 2
  | .period _ _ => 3

/-- Ordering of cells, used for the ascending group-key order of pandas
`groupby` and for `sort_values` on a date column. -/
def cellLe (a b : Cell) : Bool :=
  match a, b with
  | .str x, .str y => decide (x ≤ y)
  | .num x, .num y => decide (x ≤ y)
  | .date y1 m1 d1, .date y2 m2 d2 =>
      decide (y1 < y2 ∨ (y1 = y2 ∧ (m1 < m2 ∨ (m1 = m2 ∧ d1 ≤ d2))))
  | .period y1 m1, .period y2 m2 =>
      decide (y1 < y2 ∨ (y1 = y2 ∧ m1 ≤ m2))
  | x, y => decide (x.rank ≤ y.rank)

/-- `df.groupby(c)`: group keys in ascending order, each with the rows of
its group in original order. -/
def groupBy (df : DataFrame) (c : String) : List (Cell × List (List Cell)) :=
  let j := colIdx df c
  let keys := List.insertionSort (fun a b => cellLe a b = true) (getCol df c).dedup
  keys.map (fun k => (k, df.rows.filter (fun r => r.getD j (Cell.str "") == k)))

/-- Numeric values of column `j` over a list of rows. -/
def rowsNum (rows : List (List Cell)) (j : ℕ) : List ℚ :=
  rows.map (fun r => (r.getD j (Cell.str "")).toQ)

/-- The cell of `df` at row `i`, column `j`. -/
def cellAt (df : DataFrame) (i j : ℕ) : Cell :=
  (df.rows.getD i []).getD j (Cell.str "")

/-- `get_key_metrics`, basic block (lines 15-18): the three metrics whose
column may be absent default to `0`. -/
def kmBase (df : DataFrame) : Metrics :=
  [("total_orders", .num df.len),
   ("total_revenue", if hasCol df "Amount" then .num (numCol df "Amount").sum else .num 0),
   ("avg_order_value", if hasCol df "Amount" then meanMV (numCol df "Amount") else .num 0),
   ("total_quantity", if hasCol df "Qty" then .num (numCol df "Qty").sum else .num 0)]

/-- `get_key_metrics`, advanced block (lines 21-25). -/
def kmAdvanced (df : DataFrame) : Metrics :=
  if hasCol df "Amount" then
    [("revenue_std", stdMV (numCol df "Amount")),
     ("median_order_value", medianMV (numCol df "Amount")),
     ("max_order_value", maxMV (numCol df "Amount")),
     ("min_order_value", minMV (numCol df "Amount"))]
  else []

/-- `get_key_metrics`, category block (lines 28-30). -/
def kmCategory (df : DataFrame) : Metrics :=
  if hasCol df "Category" then
    [("unique_categories", .num (nunique (getCol df "Category"))),
     ("top_category",
       if df.len > 0 then headMV (valueCounts (getCol df "Category")) else .str "N/A")]
  else []

/-- `get_key_metrics`, geographic state block (lines 33-35). -/
def kmState (df : DataFrame) : Metrics :=
  if hasCol df "ship-state" then
    [("unique_states", .num (nunique (getCol df "ship-state"))),
     ("top_state",
       if df.len > 0 then headMV (valueCounts (getCol df "ship-state")) else .str "N/A")]
  else []

/-- `get_key_metrics`, geographic city block (lines 37-39). -/
def kmCity (df : DataFrame) : Metrics :=
  if hasCol df "ship-city" then
    [("unique_cities", .num (nunique (getCol df "ship-city"))),
     ("top_city",
       if df.len > 0 then headMV (valueCounts (getCol df "ship-city")) else .str "N/A")]
  else []

/-- `get_key_metrics`, status block (lines 42-45). -/
def kmStatus (df : DataFrame) : Metrics :=
  if hasCol df "Status" then
    let sc := valueCounts (getCol df "Status")
    [("status_distribution", .dist sc),
     ("shipped_percentage",
       if df.len > 0 then
         .num ((dictGetD sc (Cell.str "Shipped") 0 : ℚ) / (df.len : ℚ) * 100)
       else .num 0)]
  else []

/-- `get_key_metrics`, fulfilment block (lines 48-50). -/
def kmFulfilment (df : DataFrame) : Metrics :=
  if hasCol df "Fulfilment" then
    [("fulfillment_distribution", .dist (valueCounts (getCol df "Fulfilment")))]
  else []

/-- `get_key_metrics` (lines 8-52). -/
def get_key_metrics (df : DataFrame) : Metrics :=
  kmBase df ++ kmAdvanced df ++ kmCategory df ++ kmState df ++ kmCity df ++
    kmStatus df ++ kmFulfilment df

/-- Substring test on character lists. -/
def charsHave (pat : List Char) (s : List Char) : Bool :=
  match s with
  | [] => pat.isEmpty
  | _ :: t => pat.isPrefixOf s || charsHave pat t

/-- ASCII lowercasing of one character. -/
def lowerChar (c : Char) : Char :=
  if 65 ≤ c.toNat ∧ c.toNat ≤ 90 then Char.ofNat (c.toNat + 32) else c

/-- Columns whose lowercased name contains `date` or `time` (line 61). -/
def dateColumns (df : DataFrame) : List String :=
  df.cols.filter (fun c =>
    charsHave "date".toList (c.toList.map lowerChar) ||
    charsHave "time".toList (c.toList.map lowerChar))

/-- Split a character list on the dash separator. -/
def splitDash : List Char → List (List Char)
  | [] => [[]]
  | c :: t =>
    let r := splitDash t
    if c = Char.ofNat 45 then [] :: r else (c :: r.headD []) :: r.tail

/-- A decimal digit value. -/
def digitVal (c : Char) : Option ℕ :=
  if 48 ≤ c.toNat ∧ c.toNat ≤ 57 then some (c.toNat - 48) else none

/-- A nonempty all-digit character list as a natural number. -/
def natFromChars (l : List Char) : Option ℕ :=
  if l.isEmpty then none
  else
    l.foldl (fun acc c =>
      match acc, digitVal c with
      | some n, some d => some (n * 10 + d)
      | _, _ => none) (some 0)

/-- `pd.to_datetime` on one cell: an already parsed date or an ISO
`Y-M-D` string; anything else fails to parse. -/
def parseCell : Cell → Option (ℕ × ℕ × ℕ)
  | .date y m d => some (y, m, d)
  | .str s =>
    match (splitDash s.toList).map natFromChars with
    | [some y, some m, some d] =>
      if 1 ≤ m ∧ m ≤ 12 ∧ 1 ≤ d ∧ d ≤ 31 then some (y, m, d) else none
    | _ => none
  | _ => none

/-- `pd.to_datetime` on a column: every cell must parse or the whole
conversion raises. -/
def parseCells : List Cell → Option (List (ℕ × ℕ × ℕ))
  | [] => some []
  | c :: t =>
    match parseCell c, parseCells t with
    | some d, some ds => some (d :: ds)
    | _, _ => none

/-- The in-place update `df[date_col] = pd.to_datetime(df[date_col])`
(line 67): the cell of every row in column `j` is replaced by its parsed
date. -/
def setDateCol (rows : List (List Cell)) (j : ℕ) (ds : List (ℕ × ℕ × ℕ)) :
    List (List Cell) :=
  rows.zipWith (fun r d => r.set j (Cell.date d.1 d.2.1 d.2.2)) ds

/-- `df.sort_values(c)` (a stable sort on column `j`). -/
def sortByCol (rows : List (List Cell)) (j : ℕ) : List (List Cell) :=
  List.insertionSort
    (fun r1 r2 => cellLe (r1.getD j (Cell.str "")) (r2.getD j (Cell.str "")) = true) rows

/-- One aggregated row of `daily_sales` or `monthly_sales`: the group key,
then the amount and quantity aggregates, each a sum when its column is
present and a count otherwise (the ternaries of lines 72-73 and 80-81). -/
def aggRow (df : DataFrame) (key : Cell) (grp : List (List Cell)) : List TCell :=
  [key.toT,
   if hasCol df "Amount" then .num (rowsNum grp (colIdx df "Amount")).sum
   else .num (grp.length : ℚ),
   if hasCol df "Qty" then .num (rowsNum grp (colIdx df "Qty")).sum
   else .num (grp.length : ℚ)]

/-- `daily_sales` (lines 71-74): sort by the date column, group by
calendar date, aggregate. -/
def dailyTable (df : DataFrame) (dc : String) : OutTable :=
  let sorted := sortByCol df.rows (colIdx df dc)
  let grouped := groupBy ⟨df.cols, sorted⟩ dc
  ⟨[dc, "Amount", "Qty"], grouped.map (fun g => aggRow df g.1 g.2)⟩

def toPeriod : Cell → Cell
  | .date y m _ => .period y m
  | c => c

/-- `monthly_sales` (lines 79-82): the same grouping at month
granularity (`dt.to_period`). -/
def monthlyTable (df : DataFrame) (dc : String) : OutTable :=
  let j := colIdx df dc
  let sorted := sortByCol df.rows j
  let prows := sorted.map (fun r => r.set j (toPeriod (r.getD j (Cell.str ""))))
  let grouped := groupBy ⟨df.cols, prows⟩ dc
  ⟨[dc, "Amount", "Qty"], grouped.map (fun g => aggRow df g.1 g.2)⟩

/-- `growth_rate` (lines 87-89): percentage change between the first and
the last daily amount; a zero first value gives the numpy non-values. -/
def growthOf (t : OutTable) : MVal :=
  let amts := t.rows.map (fun r => match r.getD 1 TCell.nan with
    | TCell.num q => q
    | _ => 0)
  let a0 := amts.headD 0
  let a1 := amts.getLastD 0
  if a0 = 0 then (if a1 = 0 then .nan else .inf) else .num ((a1 - a0) / a0 * 100)

/-- The trend entries built once the date column parsed and both `Amount`
and `Qty` exist (lines 71-89). -/
def trendsMetrics (df2 : DataFrame) (dc : String) : Metrics :=
  let daily := dailyTable df2 dc
  let monthly := monthlyTable df2 dc
  [("daily_sales", .table daily), ("monthly_sales", .table monthly)] ++
    (if daily.rows.length > 1 then [("growth_rate", growthOf daily)] else [])

/-- Body of the `try` block of `get_sales_trends` for the detected date
column (lines 66-93).  When some date value fails to parse,
`pd.to_datetime` raises before the in-place assignment, the `except`
catches it, and only an `error` entry is returned.  When parsing
succeeds the date column is overwritten in place; the aggregation dict
of lines 71-74 names `Amount` and `Qty` unconditionally, so pandas
raises a `KeyError` (also caught, after the mutation) when either
column is absent. -/
def salesTrendsWith (df : DataFrame) (dc : String) : Metrics × DataFrame :=
  match parseCells (getCol df dc) with
  | none => ([("error", .str "DateParseError")], df)
  | some ds =>
    let df2 : DataFrame := ⟨df.cols, setDateCol df.rows (colIdx df dc) ds⟩
    ((if hasCol df "Amount" && hasCol df "Qty" then trendsMetrics df2 dc
      else [("error", .str "KeyError")]), df2)

/-- `get_sales_trends` (lines 54-95).  The second component is the input
dataframe as left behind by the function (the in-place date-column
assignment is its only write to the input). -/
def get_sales_trends (df : DataFrame) : Metrics × DataFrame :=
  match dateColumns df with
  | [] => ([], df)
  | dc :: _ => salesTrendsWith df dc

/-- Numeric value of an output-table cell. -/
def tnum : TCell → ℚ
  | .num q => q
  | _ => 0

/-- `df.groupby(g)[v].agg([sum, mean, count]).reset_index()` with the
renamed column schema `names`. -/
def aggSumMeanCount (df : DataFrame) (g v : String) (names : List String) : OutTable :=
  ⟨names, (groupBy df g).map (fun p =>
    let xs := rowsNum p.2 (colIdx df v)
    [p.1.toT, .num xs.sum, tmean xs, .num (p.2.length : ℚ)])⟩

/-- `df.groupby(g)[v].agg([sum, mean]).reset_index()` with renamed
columns. -/
def aggSumMean (df : DataFrame) (g v : String) (names : List String) : OutTable :=
  ⟨names, (groupBy df g).map (fun p =>
    let xs := rowsNum p.2 (colIdx df v)
    [p.1.toT, .num xs.sum, tmean xs])⟩

/-- `table.sort_values(col j, ascending=False)` (stable). -/
def sortRowsDescBy (t : OutTable) (j : ℕ) : OutTable :=
  ⟨t.cols, List.insertionSort
    (fun r1 r2 => tnum (r2.getD j TCell.nan) ≤ tnum (r1.getD j TCell.nan)) t.rows⟩

/-- `category_performance` (lines 124-134): aggregation of amount
(sum, mean, std), quantity (sum, mean) and `Order ID` count, plus the
derived `Revenue_per_Unit` ratio (a division-by-zero hazard modelled by
`tdiv`). -/
def categoryPerformance (df : DataFrame) : OutTable :=
  ⟨["Category", "Total_Revenue", "Avg_Revenue", "Revenue_Std", "Total_Qty", "Avg_Qty",
    "Order_Count", "Revenue_per_Unit"],
   (groupBy df "Category").map (fun p =>
     let am := rowsNum p.2 (colIdx df "Amount")
     let qt := rowsNum p.2 (colIdx df "Qty")
     [p.1.toT, .num am.sum, tmean am, tstd am, .num qt.sum, tmean qt,
      .num (p.2.length : ℚ), tdiv am.sum qt.sum])⟩

/-- `get_category_analysis` (lines 97-136).  When `Amount` and `Qty` are
both present the performance aggregation names the `Order ID` column
unconditionally (line 127), so pandas raises a `KeyError` when that
column is absent and the function returns nothing. -/
def get_category_analysis (df : DataFrame) : Except String Metrics :=
  if hasCol df "Category" then
    if hasCol df "Amount" && hasCol df "Qty" && !(hasCol df "Order ID") then
      .error "KeyError: Order ID"
    else
      let cc := valueCounts (getCol df "Category")
      .ok ([("category_counts", .dist cc), ("top_categories", .dist (cc.take 10))] ++
        (if hasCol df "Amount" then
          [("category_revenue", .table (sortRowsDescBy (aggSumMeanCount df "Category"
             "Amount" ["Category", "Total_Revenue", "Avg_Revenue", "Order_Count"]) 1))]
         else []) ++
        (if hasCol df "Qty" then
          [("category_quantity", .table (aggSumMean df "Category" "Qty"
             ["Category", "Total_Qty", "Avg_Qty"]))]
         else []) ++
        (if hasCol df "Amount" && hasCol df "Qty" then
          [("category_performance", .table (categoryPerformance df))]
         else []))
  else .ok []

def amountList (df : DataFrame) : List ℚ := numCol df "Amount"

/-- `high_value_orders` (line 263): rows with amount strictly above the
0.9 quantile. -/
def highValueOrders (df : DataFrame) : ℕ :=
  (amountList df).countP (fun x => decide (quantile (amountList df) (9 / 10) < x))

/-- `medium_value_orders` (lines 264-265): rows with amount between the
0.5 and 0.9 quantiles inclusive. -/
def mediumValueOrders (df : DataFrame) : ℕ :=
  (amountList df).countP (fun x =>
    decide (quantile (amountList df) (1 / 2) ≤ x) &&
    decide (x ≤ quantile (amountList df) (9 / 10)))

/-- `low_value_orders` (line 266): rows with amount strictly below the
0.5 quantile. -/
def lowValueOrders (df : DataFrame) : ℕ :=
  (amountList df).countP (fun x => decide (x < quantile (amountList df) (1 / 2)))

/-- A quantile cell of `revenue_quartiles` (NaN on an empty series). -/
def quantT (l : List ℚ) (q : ℚ) : TCell :=
  if l.length = 0 then .nan else .num (quantile l q)

/-- `get_revenue_analysis` (lines 244-274). -/
def get_revenue_analysis (df : DataFrame) : Metrics :=
  if hasCol df "Amount" then
    [("total_revenue", .num (amountList df).sum),
     ("avg_revenue", meanMV (amountList df)),
     ("median_revenue", medianMV (amountList df)),
     ("revenue_std", stdMV (amountList df)),
     ("max_revenue", maxMV (amountList df)),
     ("min_revenue", minMV (amountList df)),
     ("revenue_quartiles", .tmap [(1 / 4, quantT (amountList df) (1 / 4)),
        (1 / 2, quantT (amountList df) (1 / 2)), (3 / 4, quantT (amountList df) (3 / 4))]),
     ("high_value_orders", .num (highValueOrders df)),
     ("medium_value_orders", .num (mediumValueOrders df)),
     ("low_value_orders", .num (lowValueOrders df))] ++
    (if hasCol df "currency" then
      [("currency_revenue", .table (aggSumMeanCount df "currency" "Amount"
         ["Currency", "Total_Revenue", "Avg_Revenue", "Order_Count"]))]
     else [])
  else []

/-- `get_customer_insights` (lines 276-310).  The local `total_orders` is
assigned only inside the ship-state branch (line 288), so a dataset with
a ship-city column but no ship-state column raises a `NameError` at
line 298; on a zero-row dataset the concentrations are numpy `0 / 0`,
i.e. NaN. -/
def get_customer_insights (df : DataFrame) : Except String Metrics :=
  if hasCol df "ship-city" && !(hasCol df "ship-state") then
    .error "NameError: name total_orders is not defined"
  else
    .ok ((if hasCol df "ship-state" then
        let sc := valueCounts (getCol df "ship-state")
        [("customers_by_state", .dist sc),
         ("top_5_states_concentration", pctOf ((sc.take 5).map Prod.snd).sum df.len)]
      else []) ++
      (if hasCol df "ship-city" then
        let cc := valueCounts (getCol df "ship-city")
        [("customers_by_city", .dist cc),
         ("top_10_cities_concentration", pctOf ((cc.take 10).map Prod.snd).sum df.len)]
      else []) ++
      (if hasCol df "ship-postal-code" then
        [("customers_by_postal", .dist ((valueCounts (getCol df "ship-postal-code")).take 20))]
      else []) ++
      (if hasCol df "ship-country" then
        [("customers_by_country", .dist (valueCounts (getCol df "ship-country")))]
      else []))

/-- Order-size block of `get_advanced_analytics` (lines 319-326),
reachable only on a nonempty dataset. -/
def advQty (df : DataFrame) : Metrics :=
  if hasCol df "Qty" then
    let bulk := df.rows.filter (fun r => decide (1 < (r.getD (colIdx df "Qty") (Cell.str "")).toQ))
    [("avg_order_size", meanMV (numCol df "Qty")),
     ("order_size_distribution", .dist (valueCounts (getCol df "Qty"))),
     ("bulk_orders_count", .num (bulk.length : ℚ)),
     ("bulk_orders_percentage", .num ((bulk.length : ℚ) / (df.len : ℚ) * 100))]
  else []

/-- Status block of `get_advanced_analytics` (lines 329-335). -/
def advStatus (df : DataFrame) : Metrics :=
  if hasCol df "Status" then
    [("status_distribution", .dist (valueCounts (getCol df "Status")))] ++
    (if 0 < (getCol df "Status").count (Cell.str "Shipped") then
      [("fulfillment_rate",
        .num (((getCol df "Status").count (Cell.str "Shipped") : ℚ) / (df.len : ℚ) * 100))]
     else [])
  else []

/-- Sales-channel block of `get_advanced_analytics` (lines 338-349),
reachable only when `Amount` and `Qty` are both present. -/
def advChannel (df : DataFrame) : Metrics :=
  if hasCol df "Sales Channel" then
    [("channel_performance", .table
      ⟨["Sales_Channel", "Total_Revenue", "Avg_Revenue", "Order_Count", "Total_Qty", "Avg_Qty"],
       (groupBy df "Sales Channel").map (fun p =>
         let am := rowsNum p.2 (colIdx df "Amount")
         let qt := rowsNum p.2 (colIdx df "Qty")
         [p.1.toT, .num am.sum, tmean am, .num (p.2.length : ℚ), .num qt.sum, tmean qt])⟩)]
  else []

/-- Category block of `get_advanced_analytics` (lines 352-358). -/
def advCategory (df : DataFrame) : Metrics :=
  if hasCol df "Category" then
    let cc := valueCounts (getCol df "Category")
    [("product_diversity", .num (nunique (getCol df "Category"))),
     ("top_3_categories_concentration", pctOf ((cc.take 3).map Prod.snd).sum df.len)]
  else []

/-- Size block of `get_advanced_analytics` (lines 361-364). -/
def advSize (df : DataFrame) : Metrics :=
  if hasCol df "Size" then
    let sp := valueCounts (getCol df "Size")
    [("size_preferences", .dist sp),
     ("most_popular_size", if 0 < sp.length then headMV sp else .str "N/A")]
  else []

/-- `get_advanced_analytics` (lines 312-366).  With a `Qty` column and
zero rows, `bulk_orders_percentage` divides two Python ints by zero
(line 326, `ZeroDivisionError`); with a `Sales Channel` column the
aggregation dict of lines 339-342 names `Amount` and `Qty`
unconditionally, so pandas raises an uncaught `KeyError` when either is
absent. -/
def get_advanced_analytics (df : DataFrame) : Except String Metrics :=
  if hasCol df "Qty" && df.len == 0 then
    .error "ZeroDivisionError: division by zero"
  else if hasCol df "Sales Channel" && !(hasCol df "Amount" && hasCol df "Qty") then
    .error "KeyError: Amount, Qty"
  else
    .ok (advQty df ++ advStatus df ++ advChannel df ++ advCategory df ++ advSize df)

theorem hasCol_true {df : DataFrame} {c : String} (h : c ∈ df.cols) :
    hasCol df c = true := by
  simpa [hasCol, List.contains] using List.elem_iff.mpr h

theorem hasCol_false {df : DataFrame} {c : String} (h : c ∉ df.cols) :
    hasCol df c = false := by
  cases hb : hasCol df c with
  | false => rfl
  | true => exact absurd (by simpa [hasCol, List.contains] using List.elem_iff.mp hb) h

theorem getCol_length (df : DataFrame) (c : String) :
    (getCol df c).length = df.len := by
  simp [getCol, DataFrame.len]

theorem amountList_length (df : DataFrame) :
    (amountList df).length = df.len := by
  simp [amountList, numCol, getCol, DataFrame.len]

theorem valueCounts_perm (l : List Cell) :
    List.Perm (valueCounts l) (l.dedup.map (fun c => (c, l.count c))) :=
  List.perm_insertionSort _ _

theorem valueCounts_sumCounts (l : List Cell) :
    ((valueCounts l).map Prod.snd).sum = l.length := by
  have h1 : ((valueCounts l).map Prod.snd).sum
      = ((l.dedup.map (fun c => (c, l.count c))).map Prod.snd).sum :=
    ((valueCounts_perm l).map Prod.snd).sum_eq
  rw [h1, List.map_map]
  simpa using List.sum_map_count_dedup_eq_length l

theorem snd_of_mem_valueCounts {l : List Cell} {p : Cell × ℕ}
    (hp : p ∈ valueCounts l) : p.2 = l.count p.1 := by
  have hm := (valueCounts_perm l).mem_iff.mp hp
  rcases List.mem_map.mp hm with ⟨c, -, hc⟩
  rw [← hc]

theorem dictGetD_valueCounts (l : List Cell) (c : Cell) :
    dictGetD (valueCounts l) c 0 = l.count c := by
  unfold dictGetD
  cases h : (valueCounts l).lookup c with
  | some v =>
    obtain ⟨l₁, l₂, hsplit, -⟩ := List.lookup_eq_some_iff.mp h
    have hmem : (c, v) ∈ valueCounts l := by rw [hsplit]; simp
    simpa using snd_of_mem_valueCounts hmem
  | none =>
    have hforall := List.lookup_eq_none_iff.mp h
    have hnot : c ∉ l.dedup := by
      intro hc
      have hmem : (c, l.count c) ∈ valueCounts l :=
        (valueCounts_perm l).mem_iff.mpr (List.mem_map.mpr ⟨c, hc, rfl⟩)
      have := hforall _ hmem
      simp at this
    have hcl : c ∉ l := fun hc => hnot (List.mem_dedup.mpr hc)
    simp [List.count_eq_zero.mpr hcl]

theorem seg_lookup_none (c : Bool) (L : Metrics) (k : String)
    (h : L.lookup k = none) : (if c then L else []).lookup k = none := by
  cases c <;> simp [h]

theorem countP_three_partition (l : List ℚ) (a b : ℚ) (hab : a ≤ b) :
    l.countP (fun x => decide (b < x)) +
      l.countP (fun x => decide (a ≤ x) && decide (x ≤ b)) +
      l.countP (fun x => decide (x < a)) = l.length := by
  induction l with
  | nil => simp
  | cons x t ih =>
    simp only [List.countP_cons, List.length_cons]
    by_cases h1 : b < x
    · have e1 : decide (b < x) = true := decide_eq_true h1
      have e2 : decide (x ≤ b) = false := decide_eq_false (not_le.mpr h1)
      have e3 : decide (x < a) = false := decide_eq_false (not_lt.mpr (le_trans hab h1.le))
      simp [e1, e2, e3]
      omega
    · by_cases h4 : x < a
      · have e1 : decide (b < x) = false := decide_eq_false h1
        have e2 : decide (a ≤ x) = false := decide_eq_false (not_le.mpr h4)
        have e3 : decide (x < a) = true := decide_eq_true h4
        simp [e1, e2, e3]
        omega
      · have e1 : decide (b < x) = false := decide_eq_false h1
        have e2 : decide (a ≤ x) = true := decide_eq_true (not_lt.mp h4)
        have e3 : decide (x ≤ b) = true := decide_eq_true (not_lt.mp h1)
        have e4 : decide (x < a) = false := decide_eq_false h4
        simp [e1, e2, e3, e4]
        omega

theorem sorted_getD_mono {s : List ℚ} (hs : s.Sorted (fun a b => a ≤ b)) {i j : ℕ}
    (hij : i ≤ j) (hj : j < s.length) : s.getD i 0 ≤ s.getD j 0 := by
  rcases eq_or_lt_of_le hij with rfl | hlt
  · exact le_rfl
  · have hi : i < s.length := lt_trans hlt hj
    have h := List.Sorted.rel_get_of_lt hs
      (show (⟨i, hi⟩ : Fin s.length) < ⟨j, hj⟩ from hlt)
    rw [List.getD_eq_getElem?_getD, List.getD_eq_getElem?_getD,
      List.getElem?_eq_getElem hi, List.getElem?_eq_getElem hj]
    simpa [List.get_eq_getElem] using h

theorem interp_le_right {x y f : ℚ} (hf1 : f ≤ 1) (hxy : x ≤ y) :
    x + f * (y - x) ≤ y := by nlinarith

theorem left_le_interp {x y f : ℚ} (hf0 : 0 ≤ f) (hxy : x ≤ y) :
    x ≤ x + f * (y - x) := by nlinarith

theorem interpAt_mono {s : List ℚ} (hs : s.Sorted (fun a b => a ≤ b)) {x y : ℚ}
    (hx0 : 0 ≤ x) (hxy : x ≤ y) : interpAt s x ≤ interpAt s y := by
  have hy0 : 0 ≤ y := le_trans hx0 hxy
  have hixy : ⌊x⌋₊ ≤ ⌊y⌋₊ := Nat.floor_le_floor hxy
  have hxf : (⌊x⌋₊ : ℚ) ≤ x := Nat.floor_le hx0
  have hyf : (⌊y⌋₊ : ℚ) ≤ y := Nat.floor_le hy0
  have hxu : x < ⌊x⌋₊ + 1 := Nat.lt_floor_add_one x
  have hyu : y < ⌊y⌋₊ + 1 := Nat.lt_floor_add_one y
  rw [interpAt, interpAt]
  by_cases hiq : ⌊y⌋₊ + 1 < s.length
  · have hip : ⌊x⌋₊ + 1 < s.length := by omega
    rw [if_pos hip, if_pos hiq]
    rcases eq_or_lt_of_le hixy with heq | hlt
    · rw [heq]
      have hd : s.getD ⌊y⌋₊ 0 ≤ s.getD (⌊y⌋₊ + 1) 0 :=
        sorted_getD_mono hs (Nat.le_succ _) hiq
      nlinarith
    · have hup : s.getD ⌊x⌋₊ 0 + (x - (⌊x⌋₊ : ℚ)) *
          (s.getD (⌊x⌋₊ + 1) 0 - s.getD ⌊x⌋₊ 0) ≤ s.getD (⌊x⌋₊ + 1) 0 :=
        interp_le_right (by linarith)
          (sorted_getD_mono hs (Nat.le_succ _) hip)
      have hlow : s.getD ⌊y⌋₊ 0 ≤ s.getD ⌊y⌋₊ 0 + (y - (⌊y⌋₊ : ℚ)) *
          (s.getD (⌊y⌋₊ + 1) 0 - s.getD ⌊y⌋₊ 0) :=
        left_le_interp (by linarith) (sorted_getD_mono hs (Nat.le_succ _) hiq)
      have hmid : s.getD (⌊x⌋₊ + 1) 0 ≤ s.getD ⌊y⌋₊ 0 :=
        sorted_getD_mono hs (by omega) (by omega)
      linarith
  · rw [if_neg hiq]
    by_cases hip : ⌊x⌋₊ + 1 < s.length
    · rw [if_pos hip]
      have hup : s.getD ⌊x⌋₊ 0 + (x - (⌊x⌋₊ : ℚ)) *
          (s.getD (⌊x⌋₊ + 1) 0 - s.getD ⌊x⌋₊ 0) ≤ s.getD (⌊x⌋₊ + 1) 0 :=
        interp_le_right (by linarith)
          (sorted_getD_mono hs (Nat.le_succ _) hip)
      have hmid : s.getD (⌊x⌋₊ + 1) 0 ≤ s.getD (s.length - 1) 0 :=
        sorted_getD_mono hs (by omega) (by omega)
      linarith
    · rw [if_neg hip]

theorem quantileSorted_le_quantileSorted {s : List ℚ}
    (hs : s.Sorted (fun a b => a ≤ b)) {p q : ℚ} (hp0 : 0 ≤ p) (hpq : p ≤ q) :
    quantileSorted s p ≤ quantileSorted s q := by
  rw [quantileSorted, quantileSorted]
  by_cases h0 : s.length = 0
  · simp [h0]
  · simp only [h0, if_false]
    exact interpAt_mono hs (mul_nonneg (Nat.cast_nonneg _) hp0)
      (mul_le_mul_of_nonneg_left hpq (Nat.cast_nonneg _))

theorem quantile_mono (l : List ℚ) {p q : ℚ} (hp0 : 0 ≤ p) (hpq : p ≤ q) :
    quantile l p ≤ quantile l q :=
  quantileSorted_le_quantileSorted (List.sorted_insertionSort _ _) hp0 hpq

theorem revenue_segments_sum_len (df : DataFrame) :
    highValueOrders df + mediumValueOrders df + lowValueOrders df = df.len := by
  have hq : quantile (amountList df) (1 / 2) ≤ quantile (amountList df) (9 / 10) :=
    quantile_mono _ (by norm_num) (by norm_num)
  rw [highValueOrders, mediumValueOrders, lowValueOrders, ← amountList_length df]
  exact countP_three_partition _ _ _ hq

theorem parseCells_length {l : List Cell} {ds : List (ℕ × ℕ × ℕ)}
    (h : parseCells l = some ds) : ds.length = l.length := by
  induction l generalizing ds with
  | nil =>
    rw [parseCells] at h
    cases h
    rfl
  | cons c t ih =>
    rw [parseCells] at h
    cases hc : parseCell c with
    | none => rw [hc] at h; cases h
    | some d =>
      rw [hc] at h
      cases ht : parseCells t with
      | none => rw [ht] at h; cases h
      | some ds' =>
        rw [ht] at h
        cases h
        simpa using ih ht

theorem setDateCol_length (rows : List (List Cell)) (j : ℕ)
    (ds : List (ℕ × ℕ × ℕ)) :
    (setDateCol rows j ds).length = min rows.length ds.length := by
  simp [setDateCol]

theorem setDateCol_getD_ne (rows : List (List Cell)) (j : ℕ)
    (ds : List (ℕ × ℕ × ℕ)) (i k : ℕ) (hk : k ≠ j) :
    ((setDateCol rows j ds).getD i []).getD k (Cell.str "") =
      if i < min rows.length ds.length then (rows.getD i []).getD k (Cell.str "")
      else ([] : List Cell).getD k (Cell.str "") := by
  induction rows generalizing ds i with
  | nil => simp [setDateCol]
  | cons r rs ih =>
    cases ds with
    | nil => simp [setDateCol]
    | cons d ds' =>
      cases i with
      | zero =>
        simp only [setDateCol, List.zipWith_cons_cons, List.getD_cons_zero]
        rw [if_pos (by simp)]
        rw [List.getD_eq_getElem?_getD, List.getD_eq_getElem?_getD,
          List.getElem?_set_ne (Ne.symm hk)]
      | succ i' =>
        have := ih ds' i'
        simp only [setDateCol, List.zipWith_cons_cons, List.getD_cons_succ] at this ⊢
        rw [this]
        simp only [List.length_cons]
        by_cases hi : i' < min rs.length ds'.length
        · rw [if_pos hi, if_pos (by omega)]
        · rw [if_neg hi, if_neg (by omega)]

theorem km_lookup_none_of_parts (df : DataFrame) (k : String)
    (h1 : (kmBase df).lookup k = none) (h2 : (kmAdvanced df).lookup k = none)
    (h3 : (kmCategory df).lookup k = none) (h4 : (kmState df).lookup k = none)
    (h5 : (kmCity df).lookup k = none) (h6 : (kmStatus df).lookup k = none)
    (h7 : (kmFulfilment df).lookup k = none) :
    (get_key_metrics df).lookup k = none := by
  simp [get_key_metrics, List.lookup_append, h1, h2, h3, h4, h5, h6, h7]

theorem km_total_orders (df : DataFrame) :
    (get_key_metrics df).lookup "total_orders" = some (.num (df.len : ℚ)) := rfl

theorem km_shipped_percentage (df : DataFrame) (h : "Status" ∈ df.cols) :
    (get_key_metrics df).lookup "shipped_percentage" =
      some (if df.len > 0 then
        .num ((dictGetD (valueCounts (getCol df "Status")) (Cell.str "Shipped") 0 : ℚ) /
          (df.len : ℚ) * 100)
      else .num 0) := by
  have h1 : (kmBase df).lookup "shipped_percentage" = none := rfl
  have h2 : (kmAdvanced df).lookup "shipped_percentage" = none := by
    rw [kmAdvanced]; exact seg_lookup_none _ _ _ rfl
  have h3 : (kmCategory df).lookup "shipped_percentage" = none := by
    rw [kmCategory]; exact seg_lookup_none _ _ _ rfl
  have h4 : (kmState df).lookup "shipped_percentage" = none := by
    rw [kmState]; exact seg_lookup_none _ _ _ rfl
  have h5 : (kmCity df).lookup "shipped_percentage" = none := by
    rw [kmCity]; exact seg_lookup_none _ _ _ rfl
  have h6 : (kmStatus df).lookup "shipped_percentage" =
      some (if df.len > 0 then
        .num ((dictGetD (valueCounts (getCol df "Status")) (Cell.str "Shipped") 0 : ℚ) /
          (df.len : ℚ) * 100)
      else .num 0) := by
    rw [kmStatus, if_pos (hasCol_true h)]
    exact rfl
  simp [get_key_metrics, List.lookup_append, h1, h2, h3, h4, h5, h6]

theorem kmAdvanced_none_of_absent {df : DataFrame} (h : "Amount" ∉ df.cols) (k : String) :
    (kmAdvanced df).lookup k = none := by
  rw [kmAdvanced, hasCol_false h]; simp

theorem kmCategory_none_of_absent {df : DataFrame} (h : "Category" ∉ df.cols) (k : String) :
    (kmCategory df).lookup k = none := by
  rw [kmCategory, hasCol_false h]; simp

theorem kmState_none_of_absent {df : DataFrame} (h : "ship-state" ∉ df.cols) (k : String) :
    (kmState df).lookup k = none := by
  rw [kmState, hasCol_false h]; simp

theorem kmCity_none_of_absent {df : DataFrame} (h : "ship-city" ∉ df.cols) (k : String) :
    (kmCity df).lookup k = none := by
  rw [kmCity, hasCol_false h]; simp

theorem kmStatus_none_of_absent {df : DataFrame} (h : "Status" ∉ df.cols) (k : String) :
    (kmStatus df).lookup k = none := by
  rw [kmStatus, hasCol_false h]; simp

theorem kmFulfilment_none_of_absent {df : DataFrame} (h : "Fulfilment" ∉ df.cols) (k : String) :
    (kmFulfilment df).lookup k = none := by
  rw [kmFulfilment, hasCol_false h]; simp

/-- Claim C1 (code behaviour at the failing inputs): on the empty dataset
with a `Qty` column, `get_advanced_analytics` raises a
`ZeroDivisionError` computing `bulk_orders_percentage`, and on a dataset
with a `ship-city` column but no `ship-state` column,
`get_customer_insights` raises a `NameError` on the unassigned local
`total_orders` — so not every Insights Engine function returns a mapping
without raising. -/
theorem c1_engine_functions_raise :
    get_advanced_analytics ⟨["Qty"], []⟩ =
      .error "ZeroDivisionError: division by zero" ∧
    get_customer_insights ⟨["ship-city"], [[Cell.str "Mumbai"]]⟩ =
      .error "NameError: name total_orders is not defined" :=
  ⟨rfl, rfl⟩

/-- Claim C2 (counterexample): `get_sales_trends` is not pure — on a
dataset with a parseable date column it overwrites that column in place,
so the dataset after the call differs from the input. -/
theorem c2_sales_trends_mutates_input :
    (get_sales_trends ⟨["Date", "Amount", "Qty"],
      [[Cell.str "2024-01-02", Cell.num 5, Cell.num 1]]⟩).2 ≠
      ⟨["Date", "Amount", "Qty"], [[Cell.str "2024-01-02", Cell.num 5, Cell.num 1]]⟩ := by
  decide

/-- Claim C2 (amended): `get_sales_trends` mutates its input dataset at
most in the detected date column — the schema, the row count and every
cell outside that column are unchanged (and the other engine functions,
which only read the dataset, leave it unchanged entirely). -/
theorem c2_sales_trends_mutation_extent (df : DataFrame) :
    (get_sales_trends df).2.cols = df.cols ∧
    (get_sales_trends df).2.rows.length = df.rows.length ∧
    (∀ i k, k ≠ colIdx df ((dateColumns df).headD "") →
      cellAt (get_sales_trends df).2 i k = cellAt df i k) := by
  cases hdc : dateColumns df with
  | nil =>
    have he : get_sales_trends df = ([], df) := by rw [get_sales_trends, hdc]
    rw [he]
    exact ⟨rfl, rfl, fun i k _ => rfl⟩
  | cons dc rest =>
    have he : get_sales_trends df = salesTrendsWith df dc := by rw [get_sales_trends, hdc]
    rw [he]
    cases hp : parseCells (getCol df dc) with
    | none =>
      have he2 : salesTrendsWith df dc = ([("error", MVal.str "DateParseError")], df) := by
        rw [salesTrendsWith, hp]
      rw [he2]
      exact ⟨rfl, rfl, fun i k _ => rfl⟩
    | some ds =>
      have hdsl : ds.length = df.rows.length := by
        have h1 := parseCells_length hp
        simpa [getCol] using h1
      have he2 : (salesTrendsWith df dc).2 =
          ⟨df.cols, setDateCol df.rows (colIdx df dc) ds⟩ := by
        rw [salesTrendsWith, hp]
      rw [he2]
      refine ⟨rfl, ?_, ?_⟩
      · show (setDateCol df.rows (colIdx df dc) ds).length = df.rows.length
        rw [setDateCol_length, hdsl, Nat.min_self]
      · intro i k hk
        have hkj : k ≠ colIdx df dc := by
          simpa using hk
        have hgen := setDateCol_getD_ne df.rows (colIdx df dc) ds i k hkj
        rw [hdsl, Nat.min_self] at hgen
        by_cases hi : i < df.rows.length
        · rw [if_pos hi] at hgen
          simpa [cellAt] using hgen
        · rw [if_neg hi] at hgen
          have hout : df.rows.getD i [] = [] := by
            rw [List.getD_eq_getElem?_getD, List.getElem?_eq_none (by omega)]
            rfl
          show ((setDateCol df.rows (colIdx df dc) ds).getD i []).getD k (Cell.str "") =
            (df.rows.getD i []).getD k (Cell.str "")
          rw [hgen, hout]

/-- Claim C2 (witness): at a concrete dataset, a cell outside the date
column is unchanged by `get_sales_trends`. -/
theorem c2_sales_trends_mutation_extent_w :
    cellAt (get_sales_trends ⟨["Date", "Amount"],
      [[Cell.str "2024-01-03", Cell.num 4]]⟩).2 0 1 =
      cellAt ⟨["Date", "Amount"], [[Cell.str "2024-01-03", Cell.num 4]]⟩ 0 1 :=
  (c2_sales_trends_mutation_extent _).2.2 0 1 (by decide)

/-- Claim C3 (code behaviour at the failing input): on a zero-row dataset
with a `ship-state` column, `get_customer_insights` returns
`top_5_states_concentration` as NaN (numpy `0 / 0`) rather than the
guarded `0` or explicit not-applicable marker the claim requires. -/
theorem c3_concentration_nan_on_zero_rows :
    get_customer_insights ⟨["ship-state"], []⟩ =
      .ok [("customers_by_state", MVal.dist []),
           ("top_5_states_concentration", MVal.nan)] :=
  rfl

/-- Claim C4 (counterexample): on a dataset without the `Amount` column,
`get_key_metrics` still returns the `total_revenue` key, bound to the
default `0` — the key is not excluded from the mapping as claimed. -/
theorem c4_total_revenue_key_present_without_amount :
    "Amount" ∉ (⟨["Qty"], [[Cell.num 2]]⟩ : DataFrame).cols ∧
    (get_key_metrics ⟨["Qty"], [[Cell.num 2]]⟩).lookup "total_revenue" =
      some (MVal.num 0) :=
  ⟨by decide, rfl⟩

/-- Claim C4 (amended): any metric of `get_key_metrics` requiring a
missing column is excluded from the mapping, except `total_revenue`,
`avg_order_value` and `total_quantity`, which are instead present with
the default value `0`; no error is raised (the function is total). -/
theorem c4_missing_column_policy (df : DataFrame) :
    ("Amount" ∉ df.cols →
      (get_key_metrics df).lookup "total_revenue" = some (MVal.num 0) ∧
      (get_key_metrics df).lookup "avg_order_value" = some (MVal.num 0) ∧
      (get_key_metrics df).lookup "revenue_std" = none ∧
      (get_key_metrics df).lookup "median_order_value" = none ∧
      (get_key_metrics df).lookup "max_order_value" = none ∧
      (get_key_metrics df).lookup "min_order_value" = none) ∧
    ("Qty" ∉ df.cols →
      (get_key_metrics df).lookup "total_quantity" = some (MVal.num 0)) ∧
    ("Category" ∉ df.cols →
      (get_key_metrics df).lookup "unique_categories" = none ∧
      (get_key_metrics df).lookup "top_category" = none) ∧
    ("ship-state" ∉ df.cols →
      (get_key_metrics df).lookup "unique_states" = none ∧
      (get_key_metrics df).lookup "top_state" = none) ∧
    ("ship-city" ∉ df.cols →
      (get_key_metrics df).lookup "unique_cities" = none ∧
      (get_key_metrics df).lookup "top_city" = none) ∧
    ("Status" ∉ df.cols →
      (get_key_metrics df).lookup "status_distribution" = none ∧
      (get_key_metrics df).lookup "shipped_percentage" = none) ∧
    ("Fulfilment" ∉ df.cols →
      (get_key_metrics df).lookup "fulfillment_distribution" = none) := by
  refine ⟨fun hA => ⟨?_, ?_, ?_, ?_, ?_, ?_⟩, fun hQ => ?_, fun hC => ⟨?_, ?_⟩,
    fun hS => ⟨?_, ?_⟩, fun hCi => ⟨?_, ?_⟩, fun hSt => ⟨?_, ?_⟩, fun hF => ?_⟩
  · have e : (get_key_metrics df).lookup "total_revenue" =
        some (if hasCol df "Amount" then MVal.num (numCol df "Amount").sum
          else MVal.num 0) := rfl
    rw [e, hasCol_false hA]
    simp
  · have e : (get_key_metrics df).lookup "avg_order_value" =
        some (if hasCol df "Amount" then meanMV (numCol df "Amount")
          else MVal.num 0) := rfl
    rw [e, hasCol_false hA]
    simp
  · exact km_lookup_none_of_parts df _ rfl (kmAdvanced_none_of_absent hA _)
      (by rw [kmCategory]; exact seg_lookup_none _ _ _ rfl)
      (by rw [kmState]; exact seg_lookup_none _ _ _ rfl)
      (by rw [kmCity]; exact seg_lookup_none _ _ _ rfl)
      (by rw [kmStatus]; exact seg_lookup_none _ _ _ rfl)
      (by rw [kmFulfilment]; exact seg_lookup_none _ _ _ rfl)
  · exact km_lookup_none_of_parts df _ rfl (kmAdvanced_none_of_absent hA _)
      (by rw [kmCategory]; exact seg_lookup_none _ _ _ rfl)
      (by rw [kmState]; exact seg_lookup_none _ _ _ rfl)
      (by rw [kmCity]; exact seg_lookup_none _ _ _ rfl)
      (by rw [kmStatus]; exact seg_lookup_none _ _ _ rfl)
      (by rw [kmFulfilment]; exact seg_lookup_none _ _ _ rfl)
  · exact km_lookup_none_of_parts df _ rfl (kmAdvanced_none_of_absent hA _)
      (by rw [kmCategory]; exact seg_lookup_none _ _ _ rfl)
      (by rw [kmState]; exact seg_lookup_none _ _ _ rfl)
      (by rw [kmCity]; exact seg_lookup_none _ _ _ rfl)
      (by rw [kmStatus]; exact seg_lookup_none _ _ _ rfl)
      (by rw [kmFulfilment]; exact seg_lookup_none _ _ _ rfl)
  · exact km_lookup_none_of_parts df _ rfl (kmAdvanced_none_of_absent hA _)
      (by rw [kmCategory]; exact seg_lookup_none _ _ _ rfl)
      (by rw [kmState]; exact seg_lookup_none _ _ _ rfl)
      (by rw [kmCity]; exact seg_lookup_none _ _ _ rfl)
      (by rw [kmStatus]; exact seg_lookup_none _ _ _ rfl)
      (by rw [kmFulfilment]; exact seg_lookup_none _ _ _ rfl)
  · have e : (get_key_metrics df).lookup "total_quantity" =
        some (if hasCol df "Qty" then MVal.num (numCol df "Qty").sum
          else MVal.num 0) := rfl
    rw [e, hasCol_false hQ]
    simp
  · exact km_lookup_none_of_parts df _ rfl
      (by rw [kmAdvanced]; exact seg_lookup_none _ _ _ rfl)
      (kmCategory_none_of_absent hC _)
      (by rw [kmState]; exact seg_lookup_none _ _ _ rfl)
      (by rw [kmCity]; exact seg_lookup_none _ _ _ rfl)
      (by rw [kmStatus]; exact seg_lookup_none _ _ _ rfl)
      (by rw [kmFulfilment]; exact seg_lookup_none _ _ _ rfl)
  · exact km_lookup_none_of_parts df _ rfl
      (by rw [kmAdvanced]; exact seg_lookup_none _ _ _ rfl)
      (kmCategory_none_of_absent hC _)
      (by rw [kmState]; exact seg_lookup_none _ _ _ rfl)
      (by rw [kmCity]; exact seg_lookup_none _ _ _ rfl)
      (by rw [kmStatus]; exact seg_lookup_none _ _ _ rfl)
      (by rw [kmFulfilment]; exact seg_lookup_none _ _ _ rfl)
  · exact km_lookup_none_of_parts df _ rfl
      (by rw [kmAdvanced]; exact seg_lookup_none _ _ _ rfl)
      (by rw [kmCategory]; exact seg_lookup_none _ _ _ rfl)
      (kmState_none_of_absent hS _)
      (by rw [kmCity]; exact seg_lookup_none _ _ _ rfl)
      (by rw [kmStatus]; exact seg_lookup_none _ _ _ rfl)
      (by rw [kmFulfilment]; exact seg_lookup_none _ _ _ rfl)
  · exact km_lookup_none_of_parts df _ rfl
      (by rw [kmAdvanced]; exact seg_lookup_none _ _ _ rfl)
      (by rw [kmCategory]; exact seg_lookup_none _ _ _ rfl)
      (kmState_none_of_absent hS _)
      (by rw [kmCity]; exact seg_lookup_none _ _ _ rfl)
      (by rw [kmStatus]; exact seg_lookup_none _ _ _ rfl)
      (by rw [kmFulfilment]; exact seg_lookup_none _ _ _ rfl)
  · exact km_lookup_none_of_parts df _ rfl
      (by rw [kmAdvanced]; exact seg_lookup_none _ _ _ rfl)
      (by rw [kmCategory]; exact seg_lookup_none _ _ _ rfl)
      (by rw [kmState]; exact seg_lookup_none _ _ _ rfl)
      (kmCity_none_of_absent hCi _)
      (by rw [kmStatus]; exact seg_lookup_none _ _ _ rfl)
      (by rw [kmFulfilment]; exact seg_lookup_none _ _ _ rfl)
  · exact km_lookup_none_of_parts df _ rfl
      (by rw [kmAdvanced]; exact seg_lookup_none _ _ _ rfl)
      (by rw [kmCategory]; exact seg_lookup_none _ _ _ rfl)
      (by rw [kmState]; exact seg_lookup_none _ _ _ rfl)
      (kmCity_none_of_absent hCi _)
      (by rw [kmStatus]; exact seg_lookup_none _ _ _ rfl)
      (by rw [kmFulfilment]; exact seg_lookup_none _ _ _ rfl)
  · exact km_lookup_none_of_parts df _ rfl
      (by rw [kmAdvanced]; exact seg_lookup_none _ _ _ rfl)
      (by rw [kmCategory]; exact seg_lookup_none _ _ _ rfl)
      (by rw [kmState]; exact seg_lookup_none _ _ _ rfl)
      (by rw [kmCity]; exact seg_lookup_none _ _ _ rfl)
      (kmStatus_none_of_absent hSt _)
      (by rw [kmFulfilment]; exact seg_lookup_none _ _ _ rfl)
  · exact km_lookup_none_of_parts df _ rfl
      (by rw [kmAdvanced]; exact seg_lookup_none _ _ _ rfl)
      (by rw [kmCategory]; exact seg_lookup_none _ _ _ rfl)
      (by rw [kmState]; exact seg_lookup_none _ _ _ rfl)
      (by rw [kmCity]; exact seg_lookup_none _ _ _ rfl)
      (kmStatus_none_of_absent hSt _)
      (by rw [kmFulfilment]; exact seg_lookup_none _ _ _ rfl)
  · exact km_lookup_none_of_parts df _ rfl
      (by rw [kmAdvanced]; exact seg_lookup_none _ _ _ rfl)
      (by rw [kmCategory]; exact seg_lookup_none _ _ _ rfl)
      (by rw [kmState]; exact seg_lookup_none _ _ _ rfl)
      (by rw [kmCity]; exact seg_lookup_none _ _ _ rfl)
      (by rw [kmStatus]; exact seg_lookup_none _ _ _ rfl)
      (kmFulfilment_none_of_absent hF _)

/-- Claim C4 (witness): on a concrete dataset without the `Amount`
column, `revenue_std` is excluded while `total_revenue` defaults to 0. -/
theorem c4_missing_column_policy_w :
    (get_key_metrics ⟨["Qty"], [[Cell.num 2]]⟩).lookup "revenue_std" = none ∧
    (get_key_metrics ⟨["Qty"], [[Cell.num 2]]⟩).lookup "total_revenue" =
      some (MVal.num 0) :=
  ⟨((c4_missing_column_policy ⟨["Qty"], [[Cell.num 2]]⟩).1 (by decide)).2.2.1,
   ((c4_missing_column_policy ⟨["Qty"], [[Cell.num 2]]⟩).1 (by decide)).1⟩

/-- Claim C5 (code behaviour at the failing input): on a dataset whose
date column parses but which lacks the `Amount` (and `Qty`) column,
`get_sales_trends` does not fall back to per-group counts — the
aggregation dict names the absent columns, pandas raises a `KeyError`,
and the caught exception leaves only an `error` entry, with no
`daily_sales` or `monthly_sales` tables. -/
theorem c5_trends_keyerror_without_amount :
    (get_sales_trends ⟨["Date"], [[Cell.str "2024-01-05"]]⟩).1 =
      [("error", MVal.str "KeyError")] ∧
    (get_sales_trends ⟨["Date"], [[Cell.str "2024-01-05"]]⟩).1.lookup "daily_sales" = none ∧
    (get_sales_trends ⟨["Date"], [[Cell.str "2024-01-05"]]⟩).1.lookup "monthly_sales" = none :=
  ⟨rfl, rfl, rfl⟩

/-- Claim C6: when the detected date column has values that fail to
parse, `get_sales_trends` does not raise — it returns a mapping with the
`error` key and without the `daily_sales`/`monthly_sales` tables, and
the input dataset is left unchanged, so the other, independent metric
functions are unaffected. -/
theorem c6_unparseable_dates_error_mapping (df : DataFrame) (dc : String)
    (rest : List String) (hdc : dateColumns df = dc :: rest)
    (hbad : parseCells (getCol df dc) = none) :
    (get_sales_trends df).1.lookup "error" = some (MVal.str "DateParseError") ∧
    (get_sales_trends df).1.lookup "daily_sales" = none ∧
    (get_sales_trends df).1.lookup "monthly_sales" = none ∧
    (get_sales_trends df).2 = df ∧
    get_key_metrics (get_sales_trends df).2 = get_key_metrics df ∧
    get_revenue_analysis (get_sales_trends df).2 = get_revenue_analysis df := by
  have he1 : get_sales_trends df = salesTrendsWith df dc := by
    rw [get_sales_trends, hdc]
  have he2 : salesTrendsWith df dc = ([("error", MVal.str "DateParseError")], df) := by
    rw [salesTrendsWith, hbad]
  rw [he1, he2]
  exact ⟨rfl, rfl, rfl, rfl, rfl, rfl⟩

/-- Claim C6 (witness): on a concrete dataset with an unparseable date
value, the error mapping is produced and the dataset is unchanged. -/
theorem c6_unparseable_dates_error_mapping_w :
    (get_sales_trends ⟨["Date"], [[Cell.str "not-a-date"]]⟩).1.lookup "error" =
      some (MVal.str "DateParseError") ∧
    (get_sales_trends ⟨["Date"], [[Cell.str "not-a-date"]]⟩).1.lookup "daily_sales" = none ∧
    (get_sales_trends ⟨["Date"], [[Cell.str "not-a-date"]]⟩).2 =
      ⟨["Date"], [[Cell.str "not-a-date"]]⟩ :=
  ⟨(c6_unparseable_dates_error_mapping _ "Date" [] (by decide) (by decide)).1,
   (c6_unparseable_dates_error_mapping _ "Date" [] (by decide) (by decide)).2.1,
   (c6_unparseable_dates_error_mapping _ "Date" [] (by decide) (by decide)).2.2.2.1⟩

/-- Claim C7: when the `Amount` column is present (and the dataset is
nonempty), the three value segments of `get_revenue_analysis` — amounts
strictly above the 0.9 quantile, between the 0.5 and 0.9 quantiles
inclusive, and strictly below the 0.5 quantile, with the quantile
boundaries recomputed from the dataset on each call — partition the
rows: their counts sum to `total_orders`, the row count. -/
theorem c7_value_segments_partition (df : DataFrame) (h1 : "Amount" ∈ df.cols)
    (h2 : 0 < df.len) :
    (get_revenue_analysis df).lookup "high_value_orders" =
      some (MVal.num (highValueOrders df)) ∧
    (get_revenue_analysis df).lookup "medium_value_orders" =
      some (MVal.num (mediumValueOrders df)) ∧
    (get_revenue_analysis df).lookup "low_value_orders" =
      some (MVal.num (lowValueOrders df)) ∧
    highValueOrders df + mediumValueOrders df + lowValueOrders df = df.len := by
  rw [get_revenue_analysis, if_pos (hasCol_true h1)]
  exact ⟨rfl, rfl, rfl, revenue_segments_sum_len df⟩

/-- Claim C7 (witness): the partition at a concrete nonempty dataset. -/
theorem c7_value_segments_partition_w :
    highValueOrders ⟨["Amount"], [[Cell.num 10], [Cell.num 20], [Cell.num 30]]⟩ +
      mediumValueOrders ⟨["Amount"], [[Cell.num 10], [Cell.num 20], [Cell.num 30]]⟩ +
      lowValueOrders ⟨["Amount"], [[Cell.num 10], [Cell.num 20], [Cell.num 30]]⟩ =
      DataFrame.len ⟨["Amount"], [[Cell.num 10], [Cell.num 20], [Cell.num 30]]⟩ :=
  (c7_value_segments_partition ⟨["Amount"], [[Cell.num 10], [Cell.num 20], [Cell.num 30]]⟩
    (by decide) (by decide)).2.2.2

/-- Claim C8: when the `Category` column is present and
`get_category_analysis` returns a mapping, the `category_counts` entry
is the value-counts of the category column and its per-category counts
sum to `total_orders`, the row count of the dataset. -/
theorem c8_category_counts_sum (df : DataFrame) (m : Metrics)
    (hc : "Category" ∈ df.cols) (hok : get_category_analysis df = .ok m) :
    m.lookup "category_counts" =
      some (MVal.dist (valueCounts (getCol df "Category"))) ∧
    ((valueCounts (getCol df "Category")).map Prod.snd).sum = df.len ∧
    (get_key_metrics df).lookup "total_orders" = some (MVal.num (df.len : ℚ)) := by
  refine ⟨?_, ?_, km_total_orders df⟩
  · rw [get_category_analysis, if_pos (hasCol_true hc)] at hok
    by_cases hg : (hasCol df "Amount" && hasCol df "Qty" && !(hasCol df "Order ID")) = true
    · rw [if_pos hg] at hok
      cases hok
    · rw [if_neg hg] at hok
      injection hok with hm
      rw [← hm]
      exact rfl
  · rw [valueCounts_sumCounts, getCol_length]

/-- Claim C8 (witness): at a concrete dataset the counts partition the
rows. -/
theorem c8_category_counts_sum_w :
    ((valueCounts (getCol ⟨["Category"], [[Cell.str "A"], [Cell.str "A"], [Cell.str "B"]]⟩
      "Category")).map Prod.snd).sum =
      DataFrame.len ⟨["Category"], [[Cell.str "A"], [Cell.str "A"], [Cell.str "B"]]⟩ :=
  (c8_category_counts_sum ⟨["Category"], [[Cell.str "A"], [Cell.str "A"], [Cell.str "B"]]⟩
    _ (by decide) rfl).2.1

/-- Claim C9: with a `Status` column, the `shipped_percentage` of
`get_key_metrics` is a number in `[0, 100]`, equal to `0` when the
dataset is empty or when no row has status `Shipped`. -/
theorem c9_shipped_percentage_bounds (df : DataFrame) (h : "Status" ∈ df.cols) :
    ∃ x : ℚ, (get_key_metrics df).lookup "shipped_percentage" = some (MVal.num x) ∧
      0 ≤ x ∧ x ≤ 100 ∧
      (df.len = 0 → x = 0) ∧
      ((getCol df "Status").count (Cell.str "Shipped") = 0 → x = 0) := by
  by_cases hn : df.len > 0
  · refine ⟨((getCol df "Status").count (Cell.str "Shipped") : ℚ) / (df.len : ℚ) * 100,
      ?_, ?_, ?_, ?_, ?_⟩
    · rw [km_shipped_percentage df h, if_pos hn, dictGetD_valueCounts]
    · positivity
    · have hcle : (getCol df "Status").count (Cell.str "Shipped") ≤ df.len := by
        have h1 := List.count_le_length (Cell.str "Shipped") (getCol df "Status")
        rwa [getCol_length] at h1
      have hpos : (0 : ℚ) < (df.len : ℚ) := by exact_mod_cast hn
      have h1 : ((getCol df "Status").count (Cell.str "Shipped") : ℚ) / (df.len : ℚ) ≤ 1 :=
        (div_le_one hpos).mpr (by exact_mod_cast hcle)
      nlinarith
    · intro h0
      omega
    · intro hc0
      rw [hc0]
      simp
  · have h0 : df.len = 0 := by omega
    refine ⟨0, ?_, le_rfl, by norm_num, fun _ => rfl, fun _ => rfl⟩
    rw [km_shipped_percentage df h, if_neg hn]

/-- Claim C9 (witness): concrete dataset with one shipped and one
cancelled order. -/
theorem c9_shipped_percentage_bounds_w :
    ∃ x : ℚ, (get_key_metrics ⟨["Status"], [[Cell.str "Shipped"],
        [Cell.str "Cancelled"]]⟩).lookup "shipped_percentage" = some (MVal.num x) ∧
      0 ≤ x ∧ x ≤ 100 ∧
      (DataFrame.len ⟨["Status"], [[Cell.str "Shipped"], [Cell.str "Cancelled"]]⟩ = 0 → x = 0) ∧
      ((getCol ⟨["Status"], [[Cell.str "Shipped"], [Cell.str "Cancelled"]]⟩ "Status").count
        (Cell.str "Shipped") = 0 → x = 0) :=
  c9_shipped_percentage_bounds _ (by decide)

/-- Claim C10: `get_key_metrics` always returns the keys `total_orders`,
`total_revenue`, `avg_order_value` and `total_quantity`, whatever the
schema, with `total_orders` the row count, and the other three equal to
`0` whenever their source column is absent. -/
theorem c10_key_metrics_base_keys (df : DataFrame) :
    (get_key_metrics df).lookup "total_orders" = some (MVal.num (df.len : ℚ)) ∧
    ((get_key_metrics df).lookup "total_revenue").isSome = true ∧
    ((get_key_metrics df).lookup "avg_order_value").isSome = true ∧
    ((get_key_metrics df).lookup "total_quantity").isSome = true ∧
    ("Amount" ∉ df.cols →
      (get_key_metrics df).lookup "total_revenue" = some (MVal.num 0) ∧
      (get_key_metrics df).lookup "avg_order_value" = some (MVal.num 0)) ∧
    ("Qty" ∉ df.cols →
      (get_key_metrics df).lookup "total_quantity" = some (MVal.num 0)) := by
  refine ⟨rfl, rfl, rfl, rfl, fun hA => ⟨?_, ?_⟩, fun hQ => ?_⟩
  · have e : (get_key_metrics df).lookup "total_revenue" =
        some (if hasCol df "Amount" then MVal.num (numCol df "Amount").sum
          else MVal.num 0) := rfl
    rw [e, hasCol_false hA]
    simp
  · have e : (get_key_metrics df).lookup "avg_order_value" =
        some (if hasCol df "Amount" then meanMV (numCol df "Amount")
          else MVal.num 0) := rfl
    rw [e, hasCol_false hA]
    simp
  · have e : (get_key_metrics df).lookup "total_quantity" =
        some (if hasCol df "Qty" then MVal.num (numCol df "Qty").sum
          else MVal.num 0) := rfl
    rw [e, hasCol_false hQ]
    simp

/-- Claim C10 (witness): the empty schemaless dataset still yields all
four base keys, the optional three defaulting to 0. -/
theorem c10_key_metrics_base_keys_w :
    (get_key_metrics ⟨[], []⟩).lookup "total_revenue" = some (MVal.num 0) ∧
    (get_key_metrics ⟨[], []⟩).lookup "avg_order_value" = some (MVal.num 0) ∧
    (get_key_metrics ⟨[], []⟩).lookup "total_quantity" = some (MVal.num 0) :=
  ⟨((c10_key_metrics_base_keys ⟨[], []⟩).2.2.2.2.1 (by decide)).1,
   ((c10_key_metrics_base_keys ⟨[], []⟩).2.2.2.2.1 (by decide)).2,
   (c10_key_metrics_base_keys ⟨[], []⟩).2.2.2.2.2 (by decide)⟩
